import Mathlib

/-!
Shallow embedding of the daktilo-tray application (`src/src/main.rs`).

The program wires a system-tray UI to a sound-dispatch worker thread over a
single mpsc channel.  The worker thread (lines 103-133) owns the `App` value
from `daktilo_lib` (the output sink + active preset) and reacts to three
command kinds (`EventKind`, lines 24-31).  The UI menu handlers (lines
211-273) update the cached `State` and send commands into the channel; at
exit the UI writes the `State` to a cache file that the next run reads back
(lines 52-84, 234-236).

Machine-level side effects (playing a sound, constructing/dropping an `App`,
writing the cache file, logging) are recorded as an explicit `Effect` trace.
A worker step that panics (a Rust `.unwrap()` on a failed lookup or a failed
`App::init`) is modelled as `none`.
-/

namespace DaktiloTray

/-- Models Rust's `str::to_lowercase` (per-character simple lowercase mapping),
used at `src/src/main.rs` lines 62, 70, 82, 125, 164, 259. -/
def strLower (s : String) : String := ⟨s.data.map Char.toLower⟩

/-- A raw key event from `rdev::listen` (opaque payload, identified by a code). -/
structure RdevEvent where
  code : Nat
deriving DecidableEq, Repr

/-- `EventKind` from `src/src/main.rs` lines 24-31: the full command vocabulary
of the worker thread.  There are exactly three constructors. -/
inductive EventKind where
  | KeyEvent (event : RdevEvent)
  | ChangeConfig (preset_name : String) (device_name : String)
  | Enabled (is_enabled : Bool)
deriving DecidableEq, Repr

/-- `State` from `src/src/main.rs` lines 33-38: the UI-side cached state,
serialized to the cache file at exit. -/
structure State where
  enabled : Bool
  current_preset_name : String
  current_device_name : String
deriving DecidableEq, Repr

/-- A sound preset from `daktilo_lib`'s embedded config; only its `name` field
is inspected by this program (lines 104-107, 120-123, 149). -/
structure SoundPreset where
  name : String
deriving DecidableEq, Repr

/-- Modelled from the spec: the `App` value of `daktilo_lib` (not part of this
repository's sources) owns the live output sink bound to one device and the
active preset (spec sections 4.3 and 3, EngineState/Output Sink). -/
structure App where
  preset : SoundPreset
  device_name : String
deriving DecidableEq, Repr

/-- Modelled from the spec: `App::init` of `daktilo_lib` is not part of this
repository's sources.  Per spec section 4.3 the sink open fails with
`DeviceUnavailable` when the requested device is not among the enumerated
devices, and per the source comment at `src/src/main.rs` line 82 the library
compares the requested name against the lowercased enumerated device names.
`none` models the `Err` result. -/
def App.init (preset : SoundPreset) (device_name : String) (devices : List String) :
    Option App :=
  if devices.any (fun d => strLower d == device_name) then some ⟨preset, device_name⟩
  else none

/-- Observable side effects of the program, recorded as a trace. -/
inductive Effect where
  | play (event : RdevEvent)
  | initApp (preset_name : String) (device_name : String)
  | dropApp (preset_name : String) (device_name : String)
  | writeCache (st : State)
  | logError
deriving DecidableEq, Repr

/-- The worker thread's local state: the `enabled` flag (line 101) and the
`app` value (line 108/124). -/
structure WorkerState where
  enabled : Bool
  app : App
deriving DecidableEq, Repr

/-- One iteration of the worker thread's `match` on a received command
(`src/src/main.rs` lines 111-127).  `none` models a panic of the worker
thread: the `.unwrap()` at line 123 (unknown preset) or line 125 (failed
`App::init`).  On a `ChangeConfig` the new `App` is constructed first and the
old one is dropped by the assignment afterwards (Rust assignment order at
lines 124-125), hence the `initApp` effect precedes the `dropApp` effect. -/
def workerStep (presets : List SoundPreset) (devices : List String)
    (s : WorkerState) (cmd : EventKind) : Option (WorkerState × List Effect) :=
  match cmd with
  | .KeyEvent event =>
      if s.enabled then some (s, [.play event]) else some (s, [])
  | .ChangeConfig preset_name device_name =>
      match presets.find? (fun p => p.name == preset_name) with
      | none => none
      | some preset =>
          match App.init preset (strLower device_name) devices with
          | none => none
          | some newApp =>
              some ({ s with app := newApp },
                [.initApp preset.name (strLower device_name),
                 .dropApp s.app.preset.name s.app.device_name])
  | .Enabled is_enabled => some ({ s with enabled := is_enabled }, [])

/-- Runs the worker loop over a list of queued commands, consuming them one at
a time in queue order (the single-consumer `loop` at lines 109-132).  Returns
the final worker state (`none` once a step panicked, after which no further
command is processed) and the concatenated effect trace. -/
def workerRun (presets : List SoundPreset) (devices : List String) :
    WorkerState → List EventKind → Option WorkerState × List Effect
  | s, [] => (some s, [])
  | s, c :: rest =>
      match workerStep presets devices s c with
      | none => (none, [])
      | some se =>
          ((workerRun presets devices se.1 rest).1,
            se.2 ++ (workerRun presets devices se.1 rest).2)

/-- Worker-thread initialization (`src/src/main.rs` lines 103-108): resolve the
initial preset name with `.find(..).unwrap()` and build the first `App` with
`App::init(..).unwrap()`.  `none` models a panic. -/
def workerInit (presets : List SoundPreset) (devices : List String) (st : State) :
    Option WorkerState :=
  match presets.find? (fun p => p.name == st.current_preset_name) with
  | none => none
  | some preset =>
      match App.init preset st.current_device_name devices with
      | none => none
      | some app => some ⟨st.enabled, app⟩

/-- Startup state computation (`src/src/main.rs` lines 56-84).  `cache` is the
parsed cache file (`none` when the file is missing or unreadable; the toml
payload written by the exit handler deserializes back to the `State` record it
was serialized from).  `enumerated` are the names of the currently enumerated
output devices and `defaultDevice` the platform default output device's name.
If the cached device name matches no lowercased enumerated name it is replaced
by the lowercased default device name; the preset name is never touched. -/
def loadState (cache : Option State) (enumerated : List String)
    (defaultDevice : String) : State :=
  match cache with
  | some cached =>
      if enumerated.any (fun d => strLower d == cached.current_device_name) then cached
      else { cached with current_device_name := strLower defaultDevice }
  | none =>
      { enabled := true, current_preset_name := "default",
        current_device_name := strLower defaultDevice }

/-- The UI exit-menu handler (`src/src/main.rs` lines 234-236): writes the
current `State` to the cache file and exits the event loop.  It sends no
command to the worker thread (second component: commands sent). -/
def exitHandler (st : State) : List Effect × List EventKind :=
  ([.writeCache st], [])

/-- Result of `rx.recv()` at line 110: a command, or an error once all senders
are dropped. -/
inductive RecvResult where
  | ok (cmd : EventKind)
  | err
deriving DecidableEq, Repr

/-- One full iteration of the worker `loop` (lines 109-132) on the result of
`rx.recv()`.  The `Bool` records whether the loop continues afterwards; every
arm of the source loop falls through to the next iteration (there is no
`break` or `return`), so it is `true` in every non-panicking case.  The `Err`
arm (lines 128-130) merely logs the error. -/
def workerLoopIter (presets : List SoundPreset) (devices : List String)
    (s : WorkerState) : RecvResult → Option (WorkerState × List Effect × Bool)
  | .ok cmd => (workerStep presets devices s cmd).map (fun se => (se.1, se.2, true))
  | .err => some (s, [Effect.logError], true)

/-- The preset-menu handler (`src/src/main.rs` lines 240-253) for the checked
item with text `text`: sets `state.current_preset_name` and sends one
`ChangeConfig` built from the updated state's full (preset, device) pair. -/
def onPresetSelected (st : State) (text : String) : State × List EventKind :=
  let st' := { st with current_preset_name := text }
  (st', [.ChangeConfig st'.current_preset_name st'.current_device_name])

/-- The device-menu handler (`src/src/main.rs` lines 255-267) for the checked
item with text `text`: sets `state.current_device_name` to the lowercased text
and sends one `ChangeConfig` built from the updated state's full
(preset, device) pair. -/
def onDeviceSelected (st : State) (text : String) : State × List EventKind :=
  let st' := { st with current_device_name := strLower text }
  (st', [.ChangeConfig st'.current_preset_name st'.current_device_name])

/-- The key-event payloads of the `play` effects of a trace, in order. -/
def playsOf : List Effect → List RdevEvent
  | [] => []
  | .play e :: rest => e :: playsOf rest
  | .initApp _ _ :: rest => playsOf rest
  | .dropApp _ _ :: rest => playsOf rest
  | .writeCache _ :: rest => playsOf rest
  | .logError :: rest => playsOf rest

/-- The key-event payloads of a command list, in queue order. -/
def keyEventsOf : List EventKind → List RdevEvent
  | [] => []
  | .KeyEvent e :: rest => e :: keyEventsOf rest
  | .ChangeConfig _ _ :: rest => keyEventsOf rest
  | .Enabled _ :: rest => keyEventsOf rest

/-- Net change an effect makes to the number of live sinks. -/
def sinkDelta : Effect → Int
  | .initApp _ _ => 1
  | .dropApp _ _ => -1
  | _ => 0

/-- Number of live sinks after a trace, starting from `start` live sinks. -/
def sinkLive (start : Int) (effs : List Effect) : Int :=
  start + (effs.map sinkDelta).sum

/-- Whether an effect is a cache-file write (persistence). -/
def isCacheWrite : Effect → Bool
  | .writeCache _ => true
  | _ => false

/-- Concrete fixture: a preset catalog containing the single preset "default". -/
def presets0 : List SoundPreset := [⟨"default"⟩]

/-- Concrete fixture: one enumerated output device named "Speakers". -/
def devices0 : List String := ["Speakers"]

/-- Concrete fixture: enabled worker holding preset "default" on device
"speakers". -/
def st0 : WorkerState := ⟨true, ⟨⟨"default"⟩, "speakers"⟩⟩

/-- Concrete fixture: disabled worker holding preset "default" on device
"speakers". -/
def stOff : WorkerState := ⟨false, ⟨⟨"default"⟩, "speakers"⟩⟩

/-- If the worker survives a command prefix, running the concatenation is
running the prefix and then the suffix from the reached state, with the
effect traces concatenated: the single consumer processes the queue strictly
left to right. -/
theorem workerRun_append (ps : List SoundPreset) (ds : List String)
    (xs : List EventKind) :
    ∀ (s s' : WorkerState) (ys : List EventKind),
      (workerRun ps ds s xs).1 = some s' →
      workerRun ps ds s (xs ++ ys)
        = ((workerRun ps ds s' ys).1,
           (workerRun ps ds s xs).2 ++ (workerRun ps ds s' ys).2) := by
  induction xs with
  | nil =>
      intro s s' ys h
      simp [workerRun] at h
      subst h
      simp [workerRun]
  | cons c rest ih =>
      intro s s' ys h
      cases hstep : workerStep ps ds s c with
      | none => simp [workerRun, hstep] at h
      | some se =>
          simp only [List.cons_append, workerRun, hstep, List.append_eq] at h ⊢
          rw [ih se.1 s' ys h]
          simp [List.append_assoc]

/-- Key events fed to a disabled worker leave the state untouched and produce
no effects at all. -/
theorem workerRun_keyEvents_disabled (ps : List SoundPreset) (ds : List String)
    (s : WorkerState) (hs : s.enabled = false) :
    ∀ es : List RdevEvent,
      workerRun ps ds s (es.map EventKind.KeyEvent) = (some s, []) := by
  intro es
  induction es with
  | nil => simp [workerRun]
  | cons e rest ih => simp [workerRun, workerStep, hs, ih]

/-- Key events fed to an enabled worker leave the state untouched and produce
exactly one `play` effect each, in order. -/
theorem workerRun_keyEvents_enabled (ps : List SoundPreset) (ds : List String)
    (s : WorkerState) (hs : s.enabled = true) :
    ∀ es : List RdevEvent,
      workerRun ps ds s (es.map EventKind.KeyEvent)
        = (some s, es.map Effect.play) := by
  intro es
  induction es with
  | nil => simp [workerRun]
  | cons e rest ih => simp [workerRun, workerStep, hs, ih]

/-- `playsOf` distributes over trace concatenation. -/
theorem playsOf_append : ∀ xs ys : List Effect,
    playsOf (xs ++ ys) = playsOf xs ++ playsOf ys := by
  intro xs ys
  induction xs with
  | nil => simp [playsOf]
  | cons e rest ih => cases e <;> simp [playsOf, ih]

/-- The worker's effect trace never contains a cache write: the engine core
performs no persistence. -/
theorem workerRun_no_cache_write (ps : List SoundPreset) (ds : List String) :
    ∀ (s : WorkerState) (cmds : List EventKind),
      (workerRun ps ds s cmds).2.filter isCacheWrite = [] := by
  intro s cmds
  induction cmds generalizing s with
  | nil => simp [workerRun]
  | cons c rest ih =>
      cases c with
      | KeyEvent e =>
          cases hse : s.enabled <;>
            simp [workerRun, workerStep, hse, isCacheWrite, ih]
      | ChangeConfig p d =>
          cases hf : ps.find? (fun q => q.name == p) with
          | none => simp [workerRun, workerStep, hf]
          | some preset =>
              cases hi : App.init preset (strLower d) ds with
              | none => simp [workerRun, workerStep, hf, hi]
              | some a => simp [workerRun, workerStep, hf, hi, isCacheWrite, ih]
      | Enabled b => simp [workerRun, workerStep, ih]

/-- Claim C1, counterexample.  The claim states that a `ChangeConfig` whose
preset name does not resolve leaves the engine running on its previous
configuration with an error reported.  On the concrete catalog holding only
the preset "default", processing `ChangeConfig "nonexistent" "speakers"` does
not continue at all: the worker step has no successor state (the `.unwrap()`
at `src/src/main.rs` line 123 panics the worker thread), refuting the
claim. -/
theorem c1_counterexample :
    ¬ ∃ out, workerStep presets0 devices0 st0
        (EventKind.ChangeConfig "nonexistent" "speakers") = some out := by
  rintro ⟨out, h⟩
  rw [show workerStep presets0 devices0 st0
      (EventKind.ChangeConfig "nonexistent" "speakers") = none from by decide] at h
  exact Option.noConfusion h

/-- Claim C1, amended.  A `ChangeConfig` whose preset name does not resolve in
the catalog, or whose device is unavailable to `App::init`, makes the worker
thread panic (`none`): no error is reported to the originator and no further
command is processed.  A `ChangeConfig` for which both resolutions succeed
yields exactly the requested preset and the lowercased requested device as
the new active state, with the enabled flag untouched. -/
theorem c1_change_config (ps : List SoundPreset) (ds : List String)
    (s : WorkerState) (p d : String) :
    (ps.find? (fun q => q.name == p) = none →
        workerStep ps ds s (EventKind.ChangeConfig p d) = none)
    ∧ (∀ preset, ps.find? (fun q => q.name == p) = some preset →
        App.init preset (strLower d) ds = none →
        workerStep ps ds s (EventKind.ChangeConfig p d) = none)
    ∧ (∀ preset a, ps.find? (fun q => q.name == p) = some preset →
        App.init preset (strLower d) ds = some a →
        workerStep ps ds s (EventKind.ChangeConfig p d)
            = some ({ s with app := a },
                [Effect.initApp preset.name (strLower d),
                 Effect.dropApp s.app.preset.name s.app.device_name])
          ∧ a.preset.name = p ∧ a.device_name = strLower d) := by
  refine ⟨fun hf => by simp [workerStep, hf], fun preset hf hi => by
    simp [workerStep, hf, hi], fun preset a hf hi => ?_⟩
  have hname : preset.name = p := by
    have := List.find?_some hf
    simpa using this
  have ha : a = ⟨preset, strLower d⟩ := by
    unfold App.init at hi
    by_cases hc : ds.any (fun dev => strLower dev == strLower d) = true
    · rw [hc] at hi
      simp at hi
      exact hi.symm
    · rw [Bool.not_eq_true] at hc
      rw [hc] at hi
      simp at hi
  refine ⟨by simp [workerStep, hf, hi], ?_, ?_⟩
  · rw [ha]
    exact hname
  · rw [ha]

/-- Claim C1, witness for the amended theorem: the unknown-preset panic, the
unavailable-device panic, and a successful reconfiguration, on concrete
inputs. -/
theorem c1_witness :
    workerStep presets0 devices0 st0
        (EventKind.ChangeConfig "nonexistent" "speakers") = none
    ∧ workerStep presets0 devices0 st0
        (EventKind.ChangeConfig "default" "unplugged") = none
    ∧ (workerStep presets0 devices0 st0 (EventKind.ChangeConfig "default" "SPEAKERS")
          = some (⟨true, ⟨⟨"default"⟩, "speakers"⟩⟩,
              [Effect.initApp "default" "speakers",
               Effect.dropApp "default" "speakers"])
        ∧ (⟨⟨"default"⟩, "speakers"⟩ : App).preset.name = "default"
        ∧ (⟨⟨"default"⟩, "speakers"⟩ : App).device_name = strLower "SPEAKERS") :=
  ⟨(c1_change_config presets0 devices0 st0 "nonexistent" "speakers").1 (by decide),
   (c1_change_config presets0 devices0 st0 "default" "unplugged").2.1
     ⟨"default"⟩ (by decide) (by decide),
   (c1_change_config presets0 devices0 st0 "default" "SPEAKERS").2.2
     ⟨"default"⟩ ⟨⟨"default"⟩, "speakers"⟩ (by decide) (by decide)⟩

/-- Claim C2: while the worker's enabled flag is false, every queued key event
is discarded with no play invocation, no other effect and no panic; after a
subsequent `Enabled true`, later-queued key events are each played normally
and the muted ones never reappear in the effect trace. -/
theorem c2_disabled_mute (ps : List SoundPreset) (ds : List String)
    (s : WorkerState) (hs : s.enabled = false)
    (muted later : List RdevEvent) :
    workerRun ps ds s
        (muted.map EventKind.KeyEvent
          ++ EventKind.Enabled true :: later.map EventKind.KeyEvent)
      = (some { s with enabled := true }, later.map Effect.play) := by
  have h1 := workerRun_keyEvents_disabled ps ds s hs muted
  have h2 : (workerRun ps ds s (muted.map EventKind.KeyEvent)).1 = some s := by
    rw [h1]
  have happ := workerRun_append ps ds (muted.map EventKind.KeyEvent) s s
    (EventKind.Enabled true :: later.map EventKind.KeyEvent) h2
  have h3 : workerRun ps ds s
      (EventKind.Enabled true :: later.map EventKind.KeyEvent)
      = (some { s with enabled := true }, later.map Effect.play) := by
    have h4 := workerRun_keyEvents_enabled ps ds { s with enabled := true }
      rfl later
    simp [workerRun, workerStep, h4]
  rw [happ]
  simp [h1, h3]

/-- Claim C2, witness: two muted key events produce nothing; after
`Enabled true` the third key event is played and the muted two are not. -/
theorem c2_witness :
    workerRun presets0 devices0 stOff
        [EventKind.KeyEvent ⟨1⟩, EventKind.KeyEvent ⟨2⟩,
         EventKind.Enabled true, EventKind.KeyEvent ⟨3⟩]
      = (some ⟨true, ⟨⟨"default"⟩, "speakers"⟩⟩, [Effect.play ⟨3⟩]) :=
  c2_disabled_mute presets0 devices0 stOff rfl [⟨1⟩, ⟨2⟩] [⟨3⟩]

/-- Claim C3, counterexample.  The claim states that receiving a Shutdown
command makes the engine stop draining input, close the sink and reach a
terminal state.  On the concrete worker state `st0` there is no receivable
input at all — no command of the three-constructor `EventKind` vocabulary and
not even the channel-disconnect error — whose processing ends the worker
loop: every non-panicking iteration continues (flag `true`), refuting the
existence of any shutdown command. -/
theorem c3_counterexample :
    ¬ ∃ (r : RecvResult) (out : WorkerState × List Effect × Bool),
        workerLoopIter presets0 devices0 st0 r = some out ∧ out.2.2 = false := by
  rintro ⟨r, out, h, hstop⟩
  cases r with
  | ok cmd =>
      rw [workerLoopIter] at h
      rcases Option.map_eq_some'.mp h with ⟨se, _, hout⟩
      rw [← hout] at hstop
      exact Bool.noConfusion hstop
  | err =>
      rw [workerLoopIter] at h
      rcases Option.some.inj h with rfl
      exact Bool.noConfusion hstop

/-- Claim C3, amended.  The worker has no shutdown command: every iteration of
its receive loop that does not panic continues the loop, whatever input
arrives (including the channel-disconnect error, which is merely logged).
Application exit is performed by the UI event-loop handler, which writes the
cached state and sends no command to the worker. -/
theorem c3_no_shutdown (ps : List SoundPreset) (ds : List String)
    (s : WorkerState) :
    (∀ (r : RecvResult) (out : WorkerState × List Effect × Bool),
        workerLoopIter ps ds s r = some out → out.2.2 = true)
    ∧ (∀ st : State, exitHandler st = ([Effect.writeCache st], [])) := by
  refine ⟨fun r out h => ?_, fun st => rfl⟩
  cases r with
  | ok cmd =>
      rw [workerLoopIter] at h
      rcases Option.map_eq_some'.mp h with ⟨se, _, hout⟩
      rw [← hout]
  | err =>
      rw [workerLoopIter] at h
      rcases Option.some.inj h with rfl
      rfl

/-- Claim C3, witness: a concrete loop iteration (the logged channel error)
continues the loop. -/
theorem c3_witness :
    ((st0, ([Effect.logError], true)) : WorkerState × List Effect × Bool).2.2
      = true :=
  (c3_no_shutdown presets0 devices0 st0).1 RecvResult.err
    (st0, ([Effect.logError], true)) rfl

/-- Claim C4: on a successful `ChangeConfig` the replacement `App` (output
sink) is fully constructed before the previous one is dropped — the effect
trace is exactly `initApp` followed by `dropApp` — and along every prefix of
that trace at least one sink is live, so there is no interval with no
sink. -/
theorem c4_build_before_swap (ps : List SoundPreset) (ds : List String)
    (s : WorkerState) (p d : String) (preset : SoundPreset) (a : App)
    (hf : ps.find? (fun q => q.name == p) = some preset)
    (hi : App.init preset (strLower d) ds = some a) :
    ∃ trace,
      workerStep ps ds s (EventKind.ChangeConfig p d) = some ({ s with app := a }, trace)
      ∧ trace = [Effect.initApp preset.name (strLower d),
                 Effect.dropApp s.app.preset.name s.app.device_name]
      ∧ ∀ n, 1 ≤ sinkLive 1 (trace.take n) := by
  refine ⟨[Effect.initApp preset.name (strLower d),
           Effect.dropApp s.app.preset.name s.app.device_name],
    by simp [workerStep, hf, hi], rfl, fun n => ?_⟩
  match n with
  | 0 => norm_num [sinkLive]
  | 1 => norm_num [sinkLive, sinkDelta]
  | Nat.succ (Nat.succ m) => norm_num [sinkLive, sinkDelta, List.take]

/-- Claim C4, witness: a concrete successful reconfiguration builds the new
sink before dropping the old one. -/
theorem c4_witness :
    ∃ trace,
      workerStep presets0 devices0 st0 (EventKind.ChangeConfig "default" "SPEAKERS")
          = some ({ st0 with app := ⟨⟨"default"⟩, "speakers"⟩ }, trace)
      ∧ trace = [Effect.initApp "default" (strLower "SPEAKERS"),
                 Effect.dropApp "default" "speakers"]
      ∧ ∀ n, 1 ≤ sinkLive 1 (trace.take n) :=
  c4_build_before_swap presets0 devices0 st0 "default" "SPEAKERS"
    ⟨"default"⟩ ⟨⟨"default"⟩, "speakers"⟩ (by decide) (by decide)

/-- Claim C5: the worker consumes the queued commands one at a time in queue
order (it is a left-to-right fold, `workerRun`), and the sequence of play
effects it issues is a sublist of the key-event payloads in queue order: for
key events E1 queued before E2, any playback of E1 is issued strictly before
any playback of E2, and no event is replayed or reordered. -/
theorem c5_fifo_order (ps : List SoundPreset) (ds : List String)
    (s : WorkerState) (cmds : List EventKind) :
    List.Sublist (playsOf (workerRun ps ds s cmds).2) (keyEventsOf cmds) := by
  induction cmds generalizing s with
  | nil => simp [workerRun, playsOf, keyEventsOf]
  | cons c rest ih =>
      cases c with
      | KeyEvent e =>
          cases hse : s.enabled with
          | true =>
              simp only [workerRun, workerStep, hse, if_true, keyEventsOf,
                playsOf_append, playsOf]
              exact List.Sublist.cons₂ e (ih s)
          | false =>
              simp only [workerRun, workerStep, hse, Bool.false_eq_true,
                if_false, keyEventsOf, playsOf_append, playsOf, List.nil_append]
              exact List.Sublist.cons e (ih s)
      | ChangeConfig p d =>
          cases hf : ps.find? (fun q => q.name == p) with
          | none =>
              simp only [workerRun, workerStep, hf, keyEventsOf, playsOf]
              exact List.nil_sublist _
          | some preset =>
              cases hi : App.init preset (strLower d) ds with
              | none =>
                  simp only [workerRun, workerStep, hf, hi, keyEventsOf, playsOf]
                  exact List.nil_sublist _
              | some a =>
                  simp only [workerRun, workerStep, hf, hi, keyEventsOf,
                    playsOf_append, playsOf, List.nil_append]
                  exact ih _
      | Enabled b =>
          simp only [workerRun, workerStep, keyEventsOf, playsOf_append,
            playsOf, List.nil_append]
          exact ih _

/-- Claim C6: processing `Enabled b` sets the enabled flag to `b` and changes
nothing else — the `app` value (the open sink with its active preset) is kept
identical, and no effect is produced, so the sink is neither rebuilt nor
touched. -/
theorem c6_set_enabled (ps : List SoundPreset) (ds : List String)
    (s : WorkerState) (b : Bool) :
    workerStep ps ds s (EventKind.Enabled b) = some (⟨b, s.app⟩, []) := rfl

/-- Claim C7: the requested device name is matched case-insensitively — the
worker lowercases it (`src/src/main.rs` line 125) before handing it to
`App::init`, which compares it with the lowercased enumerated device names
(spec-modelled), so two `ChangeConfig` requests whose device names lowercase
identically are processed identically, and sink opening succeeds exactly when
some enumerated name matches up to case. -/
theorem c7_device_case_insensitive (ps : List SoundPreset) (ds : List String)
    (s : WorkerState) (p d1 d2 : String) (h : strLower d1 = strLower d2) :
    workerStep ps ds s (EventKind.ChangeConfig p d1)
        = workerStep ps ds s (EventKind.ChangeConfig p d2)
    ∧ ∀ preset : SoundPreset,
        (App.init preset (strLower d1) ds).isSome
          = ds.any (fun dev => strLower dev == strLower d1) := by
  constructor
  · simp only [workerStep, h]
  · intro preset
    cases hc : ds.any (fun dev => strLower dev == strLower d1) <;>
      simp [App.init, hc]

/-- Claim C7, witness: requests for "Speakers" and "sPEAKERS" are processed
identically. -/
theorem c7_witness :
    workerStep presets0 devices0 st0 (EventKind.ChangeConfig "default" "Speakers")
      = workerStep presets0 devices0 st0
          (EventKind.ChangeConfig "default" "sPEAKERS") :=
  (c7_device_case_insensitive presets0 devices0 st0 "default" "Speakers"
    "sPEAKERS" (by decide)).1

/-- Claim C8: the UI layer writes the last-used state to the cache at exit and
sends nothing to the worker there; reading it back at the next startup (while
the device is still enumerated) reproduces the same preset and device names;
a successful worker initialization uses exactly those names for its initial
configuration; and the worker core itself emits no cache write on any
command sequence. -/
theorem c8_ui_persistence (s : State) (enumerated : List String)
    (defaultDevice : String)
    (hdev : enumerated.any (fun d => strLower d == s.current_device_name) = true) :
    exitHandler s = ([Effect.writeCache s], [])
    ∧ loadState (some s) enumerated defaultDevice = s
    ∧ (∀ (ps : List SoundPreset) (ds : List String) (st' : State)
          (w' : WorkerState), workerInit ps ds st' = some w' →
        w'.app.preset.name = st'.current_preset_name
        ∧ w'.app.device_name = st'.current_device_name)
    ∧ (∀ (ps : List SoundPreset) (ds : List String) (w : WorkerState)
          (cmds : List EventKind),
        (workerRun ps ds w cmds).2.filter isCacheWrite = []) := by
  refine ⟨rfl, by simp [loadState, hdev], ?_, fun ps ds w cmds =>
    workerRun_no_cache_write ps ds w cmds⟩
  intro ps ds st' w' h
  unfold workerInit at h
  cases hf : ps.find? (fun p => p.name == st'.current_preset_name) with
  | none => simp only [hf] at h; exact Option.noConfusion h
  | some preset =>
      simp only [hf] at h
      cases hi : App.init preset st'.current_device_name ds with
      | none => simp only [hi] at h; exact Option.noConfusion h
      | some app =>
          simp only [hi, Option.some.injEq] at h
          rcases h with rfl
          have hname : preset.name = st'.current_preset_name := by
            have := List.find?_some hf
            simpa using this
          have ha : app = ⟨preset, st'.current_device_name⟩ := by
            unfold App.init at hi
            cases hc : ds.any (fun dev => strLower dev == st'.current_device_name) with
            | false =>
                rw [hc] at hi
                simp at hi
            | true =>
                rw [hc] at hi
                simp at hi
                exact hi.symm
          subst ha
          exact ⟨hname, rfl⟩

/-- Claim C8, witness: a cached state whose device is still enumerated loads
back unchanged at the next startup. -/
theorem c8_witness :
    loadState (some ⟨true, "default", "speakers"⟩) ["Speakers"] "Default Device"
      = ⟨true, "default", "speakers"⟩ :=
  (c8_ui_persistence ⟨true, "default", "speakers"⟩ ["Speakers"] "Default Device"
    (by decide)).2.1

/-- Claim C9: at startup, a cached device name matching no lowercased
enumerated device name is silently replaced by the lowercased default device
name, with every other cached field untouched; there is no analogous fallback
for the preset name — a cached preset name absent from the catalog makes the
worker initialization panic instead of recovering. -/
theorem c9_startup_fallback (cached : State) (enumerated : List String)
    (defaultDevice : String) (ps : List SoundPreset) (ds : List String)
    (st : State)
    (hmiss : enumerated.any (fun d => strLower d == cached.current_device_name)
      = false)
    (hpre : ps.find? (fun q => q.name == st.current_preset_name) = none) :
    loadState (some cached) enumerated defaultDevice
        = { cached with current_device_name := strLower defaultDevice }
    ∧ workerInit ps ds st = none := by
  constructor
  · simp [loadState, hmiss]
  · unfold workerInit
    rw [hpre]

/-- Claim C9, witness: an unplugged cached device falls back to the default
device, and an unknown cached preset name panics the worker
initialization. -/
theorem c9_witness :
    loadState (some ⟨true, "default", "bluetooth"⟩) ["Speakers"] "Speakers"
        = ⟨true, "default", "speakers"⟩
    ∧ workerInit presets0 devices0 ⟨true, "missing", "speakers"⟩ = none :=
  c9_startup_fallback ⟨true, "default", "bluetooth"⟩ ["Speakers"] "Speakers"
    presets0 devices0 ⟨true, "missing", "speakers"⟩ (by decide) (by decide)

/-- Claim C10: each UI menu selection sends a `ChangeConfig` carrying the
complete current (preset, device) pair of the updated UI state: a preset
selection sends the new preset together with the currently selected device,
and a device selection sends the currently selected preset together with the
new (lowercased) device. -/
theorem c10_full_pair (st : State) (text : String) :
    onPresetSelected st text
        = ({ st with current_preset_name := text },
           [EventKind.ChangeConfig text st.current_device_name])
    ∧ onDeviceSelected st text
        = ({ st with current_device_name := strLower text },
           [EventKind.ChangeConfig st.current_preset_name (strLower text)]) :=
  ⟨rfl, rfl⟩

end DaktiloTray
